import Mathlib

/-!
Verification of the Disclosure Delta & Validation Pipeline.

Shallow embedding of the pipeline's core modules:
  * `finance-agent/disclosure_pipeline/src/analyzer.py`
    (regime classification, section comparison, caching, batch analysis)
  * `finance-agent/multiagent_analysis/pipeline.py` (signal aggregation)
  * `finance-agent/multiagent_analysis/agents/validation.py` (cross validation)
  * `finance-agent/agents/risk_agent.py` (numeric anomaly detection)

Modelling conventions:
  * Python dicts become association lists preserving insertion order;
    assignment updates in place, new keys append at the end.
  * IEEE floats become exact rationals; the only rounding in scope is
    `round(x, 2)`, modelled as floor-based half-up rounding on rationals
    (Python uses banker's rounding on binary floats; no claim exercises a
    decimal half-tie, where the two differ).
  * The external LLM capability is an injected environment; its raw reply
    is represented already classified by the source's parse path
    (exception raised / no brace block found / block found but invalid
    JSON / successfully decoded candidate list).
  * Fallible Python code returns `Except PyExc`; an uncaught exception is
    an `Except.error` value that propagates through binds, exactly like
    exception propagation through the thread-pool `future.result()` calls.
  * Token-usage accounting (`usage_metadata` tuples) is elided: no claim
    concerns it.
-/

/-- Python exceptions that the modelled code paths can raise. -/
inductive PyExc where
  | capabilityError
  | jsonDecodeError
  | nameError
  deriving DecidableEq, Repr

/-- Does `hay` start with `needle`? (character-list helper) -/
def startsWithChars : List Char → List Char → Bool
  | _, [] => true
  | [], _ :: _ => false
  | c :: cs, n :: ns => c == n && startsWithChars cs ns

/-- Substring containment on character lists. -/
def containsChars (needle : List Char) : List Char → Bool
  | [] => needle.isEmpty
  | c :: cs => startsWithChars (c :: cs) needle || containsChars needle cs

/-- Python's `needle in hay` substring test. -/
def strIn (needle hay : String) : Bool := containsChars needle.toList hay.toList

/-- Python string comparison: lexicographic by code point. -/
def charListLt : List Char → List Char → Bool
  | _, [] => false
  | [], _ :: _ => true
  | a :: as, b :: bs => if a < b then true else if b < a then false else charListLt as bs

def strLt (a b : String) : Bool := charListLt a.toList b.toList

def trimChars (cs : List Char) : List Char :=
  ((cs.dropWhile Char.isWhitespace).reverse.dropWhile Char.isWhitespace).reverse

/-- Python's `s.strip()` (ASCII whitespace; the claims' inputs contain no
exotic Unicode spaces). -/
def pyStrip (s : String) : String := String.mk (trimChars s.toList)

/-- Python's `s.lower()` (ASCII case folding suffices for the keyword
sets and claim inputs). -/
def pyLower (s : String) : String := String.mk (s.toList.map Char.toLower)

def splitOnChar (c : Char) : List Char → List (List Char)
  | [] => [[]]
  | x :: t =>
    match splitOnChar c t with
    | [] => [[]]
    | g :: gs => if x == c then [] :: g :: gs else (x :: g) :: gs

/-- Python's `s.split(sep)` for a one-character separator. -/
def pySplit (sep : Char) (s : String) : List String :=
  (splitOnChar sep s.toList).map String.mk

/-- Stable insertion (element goes after all elements strictly below it). -/
def insertStable (lt : α → α → Bool) (x : α) : List α → List α
  | [] => [x]
  | y :: t => if lt y x then y :: insertStable lt x t else x :: y :: t

/-- Stable ascending sort, modelling Python's `sorted`. -/
def sortStable (lt : α → α → Bool) (xs : List α) : List α :=
  xs.foldr (insertStable lt) []

/-- Python dict assignment `d[k] = v` on an insertion-ordered assoc list. -/
def dictSet [BEq α] (k : α) (v : β) : List (α × β) → List (α × β)
  | [] => [(k, v)]
  | (k', v') :: t => if k' == k then (k, v) :: t else (k', v') :: dictSet k v t

-- ---------------------------------------------------------------------
-- analyzer.py lines 32-78: concept regimes
-- ---------------------------------------------------------------------

def ACCOUNTING_KEYWORDS : List String :=
  ["model", "policy", "provision", "impairment", "recognition",
   "pd", "lgd", "ead", "amortization", "depreciation",
   "expected credit loss", "ecl", "methodology"]

def GUIDANCE_KEYWORDS : List String :=
  ["expect", "estimate", "guidance", "outlook",
   "forecast", "we believe", "target", "corridor"]

def ONE_TIME_KEYWORDS : List String :=
  ["one-time", "exceptional", "annual exercise",
   "court order", "ipo", "spin-off", "divestment",
   "tax reversal", "model refresh"]

inductive Regime where
  | ACCOUNTING
  | ONE_TIME
  | GUIDANCE
  | OPERATING
  deriving DecidableEq, Repr

/-- `detect_regime` (analyzer.py lines 50-62). -/
def detect_regime (text : String) : Regime :=
  let t := pyLower text
  if ACCOUNTING_KEYWORDS.any (fun k => strIn k t) then .ACCOUNTING
  else if ONE_TIME_KEYWORDS.any (fun k => strIn k t) then .ONE_TIME
  else if GUIDANCE_KEYWORDS.any (fun k => strIn k t) then .GUIDANCE
  else .OPERATING

/-- `is_comparable` (analyzer.py lines 65-69). -/
def is_comparable (quote_old quote_new : String) : Bool :=
  detect_regime quote_old == detect_regime quote_new

inductive SignalClassification where
  | POSITIVE
  | NEGATIVE
  | NOISE
  deriving DecidableEq, Repr

/-- The `.value` of the `SignalClassification` str-enum. -/
def signalValue : SignalClassification → String
  | .POSITIVE => "Positive"
  | .NEGATIVE => "Negative"
  | .NOISE => "Noise"

/-- `SignalClassification(signal_val)`, with the `ValueError` fallback to
NOISE applied by the caller (analyzer.py lines 193-196). -/
def signalFromStr (s : String) : SignalClassification :=
  if s == "Positive" then .POSITIVE
  else if s == "Negative" then .NEGATIVE
  else .NOISE

/-- `downgrade_signal` (analyzer.py lines 72-78). -/
def downgrade_signal (signal : SignalClassification) (quote_new : String) :
    SignalClassification :=
  if ONE_TIME_KEYWORDS.any (fun k => strIn k (pyLower quote_new)) then .NOISE
  else signal

-- ---------------------------------------------------------------------
-- analyzer.py lines 130-225: compare_sections
-- ---------------------------------------------------------------------

structure DisclosureChange where
  sectionName : String
  quote_old : String
  quote_new : String
  description_of_change : String
  signal_classification : SignalClassification
  deriving DecidableEq, Repr

/-- One JSON candidate object from the capability reply; `Option` models
possibly-absent / null keys read through `ch.get(...)`. -/
structure RawChange where
  quote_old : Option String
  quote_new : Option String
  description_of_change : Option String
  signal_classification : Option String
  deriving DecidableEq, Repr

/-- The capability reply, classified by the source's parse path
(analyzer.py lines 171-181): the `chain.invoke` call raises, or the
reply text has no `{...}` block (regex miss, `parsed = {"changes": []}`),
or the block is not valid JSON (`json.loads` raises), or it decodes to a
candidate list (`parsed.get("changes", [])`). -/
inductive CapOutcome where
  | raise
  | noBlock (content : String)
  | badJson
  | parsed (changes : List RawChange)

def MIN_SECTION_LENGTH : Nat := 100

/-- The guard at analyzer.py lines 141-144: the text must be present,
truthy, and at least `MIN_SECTION_LENGTH` characters long. -/
def sectionTextOk : Option String → Bool
  | none => false
  | some t => MIN_SECTION_LENGTH ≤ t.length

/-- Candidate-filter loop of `compare_sections` (analyzer.py lines
183-223), with the two dedup sets threaded explicitly. -/
def processLoop (section_name : String) (seenNew seenDesc : List String) :
    List RawChange → List DisclosureChange
  | [] => []
  | ch :: rest =>
    let quote_old := pyStrip (ch.quote_old.getD "")
    let quote_new := pyStrip (ch.quote_new.getD "")
    let desc := pyStrip (ch.description_of_change.getD "")
    let signal := signalFromStr (ch.signal_classification.getD "Noise")
    if quote_old = "" ∨ quote_new = "" then
      processLoop section_name seenNew seenDesc rest
    else if ¬ (is_comparable quote_old quote_new = true) then
      processLoop section_name seenNew seenDesc rest
    else if pyLower quote_new ∈ seenNew ∨ pyLower desc ∈ seenDesc then
      processLoop section_name seenNew seenDesc rest
    else
      { sectionName := section_name
        quote_old := quote_old
        quote_new := quote_new
        description_of_change := desc
        signal_classification := downgrade_signal signal quote_new } ::
      processLoop section_name (pyLower quote_new :: seenNew)
        (pyLower desc :: seenDesc) rest

def processCandidates (section_name : String) (chs : List RawChange) :
    List DisclosureChange :=
  processLoop section_name [] [] chs

/-- `compare_sections` (analyzer.py lines 132-225).  Note the source has
no try/except around `chain.invoke` or `json.loads`: those exceptions
propagate to the caller. -/
def compare_sections (section_name : String)
    (text_previous text_current : Option String) (cap : CapOutcome) :
    Except PyExc (List DisclosureChange) :=
  if sectionTextOk text_previous && sectionTextOk text_current then
    match cap with
    | .raise => .error .capabilityError
    | .badJson => .error .jsonDecodeError
    | .noBlock _ => .ok (processCandidates section_name [])
    | .parsed chs => .ok (processCandidates section_name chs)
  else
    .ok []

-- ---------------------------------------------------------------------
-- analyzer.py lines 232-269: compare_quarters
-- ---------------------------------------------------------------------

/-- `data_current: Dict[str, Optional[str]]` — section name to text. -/
abbrev SectionMap : Type := List (String × Option String)

/-- Python's `d.get(section)`: `None` when absent, stored value otherwise. -/
def getSec (m : SectionMap) (s : String) : Option String :=
  (List.lookup s m).join

/-- The capability environment: given a section name and the two texts the
prompt is built from, what does the extraction call produce?  A function
(deterministic) because the claims quantify over environments. -/
abbrev SecEnv : Type := String → Option String → Option String → CapOutcome

def SECTIONS : List String := ["MD&A", "Risk_Factors", "Accounting"]

/-- Sequential effectful map over `Except`, mirroring the loop over
`future.result()` calls: the first exception in list order propagates. -/
def exceptMapM (f : α → Except ε β) : List α → Except ε (List β)
  | [] => .ok []
  | a :: t =>
    match f a with
    | .error e => .error e
    | .ok b =>
      match exceptMapM f t with
      | .error e => .error e
      | .ok bs => .ok (b :: bs)

/-- `compare_quarters` (analyzer.py lines 232-269): one
`compare_sections` call per section in `SECTIONS`, results concatenated;
an exception from any section propagates out of `future.result()`. -/
def compare_quarters (_company quarter_current quarter_previous : String)
    (data_current data_previous : SectionMap) (env : SecEnv) :
    Except PyExc (List DisclosureChange) :=
  let _ := (quarter_current, quarter_previous)
  match exceptMapM
      (fun s => compare_sections s (getSec data_previous s) (getSec data_current s)
        (env s (getSec data_previous s) (getSec data_current s)))
      SECTIONS with
  | .error e => .error e
  | .ok rss => .ok rss.flatten

-- ---------------------------------------------------------------------
-- analyzer.py lines 344-508: caching and multi-company analysis
-- ---------------------------------------------------------------------

/-- The flat result dict built per change in `analyze_pair`
(analyzer.py lines 454-463); also the unit stored in the cache. -/
structure ResultRow where
  Company : String
  Quarter_Previous : String
  Quarter_Current : String
  Section : String
  Quote_Old : String
  Quote_New : String
  Description : String
  Signal : String
  deriving DecidableEq, Repr

/-- The JSON analysis cache: string key to list of result rows. -/
abbrev Cache : Type := List (String × List ResultRow)

/-- `get_cache_key` (analyzer.py lines 365-367). -/
def get_cache_key (company q_prev q_curr sec : String) : String :=
  company ++ "|" ++ q_prev ++ "|" ++ q_curr ++ "|" ++ sec

def cacheLookup (cache : Cache) (k : String) : Option (List ResultRow) :=
  List.lookup k cache

/-- `_has_meaningful_data` (analyzer.py lines 374-379). -/
def _has_meaningful_data (quarter_data : SectionMap) : Bool :=
  SECTIONS.any (fun s => sectionTextOk (getSec quarter_data s))

/-- Sort key for quarter labels (analyzer.py line 409):
`(q.split('_')[1], q.split('_')[0]) if '_' in q else q`.  A label
without an underscore is keyed as `(q, "")`; mixing the two shapes in
one list raises `TypeError` in Python and is outside the model. -/
def quarterSortKey (q : String) : String × String :=
  if strIn "_" q then
    let parts := pySplit '_' q
    (parts.getD 1 "", parts.getD 0 "")
  else (q, "")

def quarterKeyLt (a b : String) : Bool :=
  let ka := quarterSortKey a
  let kb := quarterSortKey b
  strLt ka.1 kb.1 || (ka.1 == kb.1 && strLt ka.2 kb.2)

/-- `parsed_data[company]`: quarter label to section map, insertion
ordered. -/
abbrev QuarterData : Type := List (String × SectionMap)

def qGet (qdata : QuarterData) (q : String) : SectionMap :=
  (List.lookup q qdata).getD []

/-- `parsed_data`: company to quarter data. -/
abbrev ParsedData : Type := List (String × QuarterData)

/-- One element of `pairs_to_analyze` (analyzer.py line 440), in source
field order `(company, q_curr, q_prev, quarters_data)`. -/
structure PairWork where
  company : String
  q_curr : String
  q_prev : String
  qdata : QuarterData
  deriving DecidableEq, Repr

/-- The fully-cached check for one pair (analyzer.py lines 423-432):
walk the three section keys, abort at the first one missing, otherwise
concatenate the cached rows in section order. -/
def collectCached (cache : Cache) (company q_prev q_curr : String) :
    List String → Option (List ResultRow)
  | [] => some []
  | s :: rest =>
    match cacheLookup cache (get_cache_key company q_prev q_curr s) with
    | none => none
    | some rs => (collectCached cache company q_prev q_curr rest).map (rs ++ ·)

def pairCachedChanges (cache : Cache) (company q_prev q_curr : String) :
    Option (List ResultRow) :=
  collectCached cache company q_prev q_curr SECTIONS

def consecutivePairs : List α → List (α × α)
  | [] => []
  | [_] => []
  | a :: b :: t => (a, b) :: consecutivePairs (b :: t)

/-- Per-pair planning loop (analyzer.py lines 416-440): a fully cached
pair contributes its cached rows to `results`; any other pair is
scheduled in `pairs_to_analyze`; under `dry_run` the pair is skipped. -/
def planPairs (cache : Cache) (dryRun : Bool) (company : String)
    (qdata : QuarterData) : List (String × String) →
    List ResultRow × List PairWork
  | [] => ([], [])
  | (q_prev, q_curr) :: rest =>
    let acc := planPairs cache dryRun company qdata rest
    if dryRun then acc
    else
      match pairCachedChanges cache company q_prev q_curr with
      | some cached => (cached ++ acc.1, acc.2)
      | none => (acc.1, ⟨company, q_curr, q_prev, qdata⟩ :: acc.2)

/-- Per-company planning (analyzer.py lines 401-440): filter quarters to
those with meaningful data, sort chronologically, require at least two,
then plan each consecutive pair. -/
def planCompany (cache : Cache) (dryRun : Bool) (company : String)
    (qdata : QuarterData) : List ResultRow × List PairWork :=
  let meaningful := (qdata.map Prod.fst).filter
    (fun q => _has_meaningful_data (qGet qdata q))
  let quarters := sortStable quarterKeyLt meaningful
  if quarters.length < 2 then ([], [])
  else planPairs cache dryRun company qdata (consecutivePairs quarters)

def planAll (cache : Cache) (dryRun : Bool) : ParsedData →
    List ResultRow × List PairWork
  | [] => ([], [])
  | (company, qdata) :: rest =>
    let here := planCompany cache dryRun company qdata
    let there := planAll cache dryRun rest
    (here.1 ++ there.1, here.2 ++ there.2)

/-- `analyze_pair` (analyzer.py lines 444-464): compare the quarters and
flatten each change into a result row. -/
def analyze_pair (env : SecEnv) (pw : PairWork) : Except PyExc (List ResultRow) :=
  match compare_quarters pw.company pw.q_curr pw.q_prev
      (qGet pw.qdata pw.q_curr) (qGet pw.qdata pw.q_prev) env with
  | .error e => .error e
  | .ok changes =>
    .ok (changes.map (fun c =>
      { Company := pw.company
        Quarter_Previous := pw.q_prev
        Quarter_Current := pw.q_curr
        Section := c.sectionName
        Quote_Old := c.quote_old
        Quote_New := c.quote_new
        Description := c.description_of_change
        Signal := signalValue c.signal_classification }))

/-- Names bound at module scope in analyzer.py: the imports at lines
6-18, the models import, and the module-level definitions.  Neither
`collections` nor `defaultdict` is among them, and `defaultdict` is not
a Python builtin. -/
def analyzerModuleBindings : List String :=
  ["os", "logging", "re", "json", "Path", "ThreadPoolExecutor",
   "List", "Dict", "Optional", "Tuple", "load_dotenv",
   "ChatGoogleGenerativeAI", "ChatPromptTemplate",
   "DisclosureChange", "SignalClassification", "logger",
   "ACCOUNTING_KEYWORDS", "GUIDANCE_KEYWORDS", "ONE_TIME_KEYWORDS",
   "detect_regime", "is_comparable", "downgrade_signal", "SYSTEM_PROMPT",
   "create_gemini_llm", "MIN_SECTION_LENGTH", "compare_sections",
   "compare_quarters", "generate_final_verdict", "ANALYSIS_CACHE_PATH",
   "load_analysis_cache", "save_analysis_cache", "get_cache_key",
   "_has_meaningful_data", "analyze_all_companies"]

/-- The cache-update step for a freshly analyzed pair (analyzer.py lines
475-481).  Its first statement is `by_section = defaultdict(list)`;
evaluating the name `defaultdict` in a scope that does not bind it makes
Python raise `NameError`, so the grouping and the three `cache[key]`
assignments below it are never reached. -/
def updateCacheForPair (cache : Cache) (pw : PairWork)
    (pair_results : List ResultRow) : Except PyExc Cache :=
  if analyzerModuleBindings.contains "defaultdict" then
    .ok (SECTIONS.foldl
      (fun c s => dictSet (get_cache_key pw.company pw.q_prev pw.q_curr s)
        (pair_results.filter (fun r => r.Section == s)) c)
      cache)
  else .error .nameError

/-- The fan-in loop over scheduled pairs (analyzer.py lines 466-482):
results are consumed in submission order; each pair extends `results`
and then updates the cache; any exception aborts the whole loop. -/
def processPairs (env : SecEnv) (cache : Cache) (acc : List ResultRow) :
    List PairWork → Except PyExc (List ResultRow × Cache)
  | [] => .ok (acc, cache)
  | pw :: rest =>
    match analyze_pair env pw with
    | .error e => .error e
    | .ok pr =>
      match updateCacheForPair cache pw pr with
      | .error e => .error e
      | .ok cache' => processPairs env cache' (acc ++ pr) rest

/-- Dedup key of the global dedup pass (analyzer.py line 489). -/
def rowKey (r : ResultRow) : String × String × String :=
  (pyLower r.Company, r.Quarter_Current, pyLower r.Quote_New)

/-- The global dedup loop (analyzer.py lines 486-492), with the `seen`
set threaded explicitly. -/
def dedupGo (seen : List (String × String × String)) :
    List ResultRow → List ResultRow
  | [] => []
  | r :: t =>
    if rowKey r ∈ seen then dedupGo seen t
    else r :: dedupGo (rowKey r :: seen) t

def dedupRows (rs : List ResultRow) : List ResultRow := dedupGo [] rs

/-- Parsed verdict JSON (`insights`, `verdict`, `final_signal`). -/
structure VerdictInfo where
  insights : String
  verdict : String
  final_signal : String
  deriving DecidableEq, Repr

/-- The verdict capability reply, classified like `CapOutcome`. -/
inductive VerdictOutcome where
  | raise
  | noBlock (content : String)
  | badJson
  | parsed (v : VerdictInfo)

/-- `generate_final_verdict` (analyzer.py lines 276-335).  The source's
empty-input dict has no `insights` key; modelled as the empty string. -/
def generate_final_verdict (results : List ResultRow)
    (venv : VerdictOutcome) : Except PyExc VerdictInfo :=
  if results.isEmpty then
    .ok ⟨"", "No meaningful changes detected to analyze.", "Noise"⟩
  else
    match venv with
    | .raise => .error .capabilityError
    | .badJson => .error .jsonDecodeError
    | .noBlock content => .ok ⟨"Error parsing LLM response", content, "Noise"⟩
    | .parsed v => .ok v

structure AnalysisOutput where
  results : List ResultRow
  verdict : Option VerdictInfo
  deriving DecidableEq, Repr

/-- Everything in `analyze_all_companies` after the planning loop
(analyzer.py lines 442-508): analyze the scheduled pairs, dedup the
merged batch, and synthesize the verdict.  The returned `Cache` is the
persisted cache state; an `Except.error` models the uncaught exception
aborting the batch, in which case nothing is returned or persisted. -/
def afterPlan (dryRun : Bool) (cache : Cache) (env : SecEnv)
    (venv : VerdictOutcome) (hitResults : List ResultRow)
    (pairs : List PairWork) : Except PyExc (AnalysisOutput × Cache) :=
  match (if pairs.isEmpty then .ok (hitResults, cache)
         else processPairs env cache hitResults pairs) with
  | .error e => .error e
  | .ok (results, cache') =>
    let final := dedupRows results
    if !final.isEmpty && !dryRun then
      match generate_final_verdict final venv with
      | .error e => .error e
      | .ok v => .ok (⟨final, some v⟩, cache')
    else .ok (⟨final, none⟩, cache')

/-- `analyze_all_companies` (analyzer.py lines 382-508). -/
def analyze_all_companies (dryRun : Bool) (cache : Cache) (pd : ParsedData)
    (env : SecEnv) (venv : VerdictOutcome) :
    Except PyExc (AnalysisOutput × Cache) :=
  let plan := planAll cache dryRun pd
  afterPlan dryRun cache env venv plan.1 plan.2

-- ---------------------------------------------------------------------
-- multiagent_analysis/models.py: MetricDelta, SectionalInsight
-- ---------------------------------------------------------------------

/-- `MetricDelta` (models.py lines 9-48).  The UI and market fields
(`ui_component_type`, `market_validation`, `market_note`) are elided: no
claim in scope reads them.  Field defaults mirror the pydantic defaults:
`validation_status = "verified"`, `validation_note = ""`. -/
structure MetricDelta where
  subtopic : String
  quote_old : String
  quote_new : String
  language_shift : String
  signal_classification : String
  signal_score : ℚ
  validation_status : String := "verified"
  validation_note : String := ""
  deriving DecidableEq, Repr

structure SectionalInsight where
  section_name : String
  key_takeaways : List String
  metrics : List MetricDelta
  deriving DecidableEq, Repr

-- ---------------------------------------------------------------------
-- multiagent_analysis/pipeline.py lines 85-112: compute_overall_signal
-- ---------------------------------------------------------------------

/-- Python's binary `max` (first argument on ties), executable on ℚ. -/
def pyMax (a b : ℚ) : ℚ := if a < b then b else a

/-- Python's binary `min` (first argument on ties), executable on ℚ. -/
def pyMin (a b : ℚ) : ℚ := if b < a then b else a

/-- Python's `abs`, executable on ℚ. -/
def pyAbs (q : ℚ) : ℚ := if q < 0 then -q else q

/-- Python's `round(x, 2)`.  Modelled as floor-based half-up rounding at
two decimal places on exact rationals; Python rounds the nearest binary
float with ties to even, which coincides except on exact decimal
half-ties, which no claim exercises. -/
def round2 (q : ℚ) : ℚ := (⌊q * 100 + 1 / 2⌋ : ℚ) / 100

/-- `compute_overall_signal` (pipeline.py lines 85-112): collect
`signal_score` of every metric of every insight (no filtering by
validation status), mean, round, clamp to [-10, 10], then threshold. -/
def compute_overall_signal (insights : List SectionalInsight) : ℚ × String :=
  let all_scores :=
    (insights.map (fun i => i.metrics.map (fun m => m.signal_score))).flatten
  if all_scores.isEmpty then (0, "Noise")
  else
    let raw_sum := all_scores.foldl (· + ·) 0
    let avg_score := raw_sum / (all_scores.length : ℚ)
    let overall_score := pyMax (-10) (pyMin 10 (round2 avg_score))
    let signal :=
      if overall_score > 2 then "Positive"
      else if overall_score < -2 then "Negative"
      else if pyAbs overall_score > 1 / 2 then "Mixed"
      else "Noise"
    (overall_score, signal)

-- ---------------------------------------------------------------------
-- multiagent_analysis/agents/validation.py: validate_section
-- ---------------------------------------------------------------------

/-- `MetricValidation` (validation.py lines 20-26), with the pydantic
defaults for the corrected quotes. -/
structure MetricValidation where
  subtopic : String
  status : String
  reason : String
  corrected_quote_old : String := ""
  corrected_quote_new : String := ""
  deriving DecidableEq, Repr

/-- Outcome of the `invoke_structured` validation call: either the call
raises (exception, timeout, schema-parse failure) or it returns a
`ValidationReport`-shaped result list. -/
inductive ValOutcome where
  | raise
  | report (results : List MetricValidation)

/-- `result_map = {r.subtopic: r for r in report.results}` (validation.py
line 111): for duplicate subtopics the last entry wins. -/
def resultMapGet (results : List MetricValidation) (sub : String) :
    Option MetricValidation :=
  (results.filter (fun r => r.subtopic == sub)).getLast?

/-- Application of one validation result to one metric (validation.py
lines 117-124): set status and note, then overwrite either quote when a
non-empty correction is supplied. -/
def applyValidation (v : MetricValidation) (m : MetricDelta) : MetricDelta :=
  let m1 := { m with validation_status := v.status, validation_note := v.reason }
  let m2 := if v.corrected_quote_old ≠ "" then
      { m1 with quote_old := v.corrected_quote_old } else m1
  if v.corrected_quote_new ≠ "" then
    { m2 with quote_new := v.corrected_quote_new } else m2

/-- Per-metric body of `_local_consistency_check` (validation.py lines
146-155).  The note's numeric rendering uses Lean's rational printer in
place of Python's float interpolation; only its non-emptiness matters to
any claim. -/
def _local_consistency_check_metric (m : MetricDelta) : MetricDelta :=
  if m.signal_classification == "Positive" && decide (m.signal_score < 0) then
    { m with validation_status := "flagged",
             validation_note :=
               "Signal is Positive but score is " ++ toString m.signal_score }
  else if m.signal_classification == "Negative" && decide (m.signal_score > 0) then
    { m with validation_status := "flagged",
             validation_note :=
               "Signal is Negative but score is " ++ toString m.signal_score }
  else m

/-- `validate_section` (validation.py lines 65-143): on a successful
capability call, apply the reported statuses (metrics without a matching
report entry are kept as-is, and removed metrics are kept too — "Keep
all metrics (even removed)"); on any exception, fall back to
`_local_consistency_check` over the same metric list. -/
def validate_section (insight : SectionalInsight) (cap : ValOutcome) :
    SectionalInsight :=
  if insight.metrics.isEmpty then insight
  else
    match cap with
    | .report results =>
      { insight with
        metrics := insight.metrics.map (fun m =>
          match resultMapGet results m.subtopic with
          | none => m
          | some v => applyValidation v m) }
    | .raise =>
      { insight with
        metrics := insight.metrics.map _local_consistency_check_metric }

-- ---------------------------------------------------------------------
-- agents/risk_agent.py: parse_value, detect_anomalies
-- ---------------------------------------------------------------------

/-- Python `s.replace(c, '')`. -/
def removeChar (c : Char) (s : String) : String :=
  String.mk (s.toList.filter (fun x => x != c))

def digitsToNatAux (acc : Nat) : List Char → Option Nat
  | [] => some acc
  | c :: t =>
    if c.isDigit then digitsToNatAux (acc * 10 + (c.toNat - 48)) t else none

/-- Unsigned decimal literal: digits, optionally a dot with fractional
digits.  (`float()` also accepts exponents and inf/nan; those forms do
not occur in any claim input and are parsed as failures here.) -/
def parseUnsignedDec (cs : List Char) : Option ℚ :=
  let ip := cs.takeWhile (fun c => c.isDigit)
  let rest := cs.dropWhile (fun c => c.isDigit)
  match rest with
  | [] =>
    if ip.isEmpty then none
    else (digitsToNatAux 0 ip).map (fun n => (n : ℚ))
  | '.' :: fp =>
    if fp.all (fun c => c.isDigit) && !(ip.isEmpty && fp.isEmpty) then
      match digitsToNatAux 0 ip, digitsToNatAux 0 fp with
      | some i, some f => some ((i : ℚ) + (f : ℚ) / ((10 : ℚ) ^ fp.length))
      | _, _ => none
    else none
  | _ => none

/-- Python's `float(s)` on simple decimal literals. -/
def pyFloat (s : String) : Option ℚ :=
  match trimChars s.toList with
  | '+' :: t => parseUnsignedDec t
  | '-' :: t => (parseUnsignedDec t).map Neg.neg
  | t => parseUnsignedDec t

/-- `parse_value` (risk_agent.py lines 6-12): strip `$`, `,`, `%`,
whitespace, parse as float; on `ValueError` return 0.0. -/
def parse_value (val_str : String) : ℚ :=
  (pyFloat (pyStrip (removeChar '%' (removeChar ',' (removeChar '$' val_str))))).getD 0

/-- One fact record.  The source reads dict keys through
`fact.get(key, default)`; records are modelled with the defaults
(`"Unknown"`, `"0"`) already substituted for absent keys. -/
structure FactRec where
  company : String
  metric : String
  year : String
  value : String
  deriving DecidableEq, Repr

/-- The grouping pass of `detect_anomalies` (risk_agent.py lines 23-29):
`(company, metric) -> {year: value}`, insertion ordered, later facts for
the same year overwriting earlier ones. -/
def buildHistory (facts : List FactRec) :
    List ((String × String) × List (String × String)) :=
  facts.foldl (fun h f =>
    let key := (f.company, f.metric)
    let inner := (List.lookup key h).getD []
    dictSet key (dictSet f.year f.value inner) h) []

inductive AnomKind where
  | Drift
  | Spike
  deriving DecidableEq, Repr

/-- Structured anomaly (spec §4.4 `detect_structured` shape).  The
source renders each as a text line with `{change_pct:.1f}`; the
structured form keeps every payload field and elides the formatting. -/
structure Anomaly where
  company : String
  metric : String
  y_prev : String
  y_curr : String
  pct_change : ℚ
  kind : AnomKind
  deriving DecidableEq, Repr

/-- The per-adjacent-pair body of the detection loop (risk_agent.py
lines 45-56): skip when the previous value is zero, else classify by
strict thresholds `change_pct < -5.0` (Drift) and `change_pct > 20.0`
(Spike). -/
def pairAnomaly (company metric y_prev y_curr : String) (v_prev v_curr : ℚ) :
    Option Anomaly :=
  if v_prev = 0 then none
  else
    let change_pct := ((v_curr - v_prev) / v_prev) * 100
    if change_pct < -5 then
      some ⟨company, metric, y_prev, y_curr, change_pct, .Drift⟩
    else if change_pct > 20 then
      some ⟨company, metric, y_prev, y_curr, change_pct, .Spike⟩
    else none

/-- One group's detection loop (risk_agent.py lines 37-56): sort the
years as strings, walk adjacent pairs. -/
def groupAnomalies (company metric : String)
    (years : List (String × String)) : List Anomaly :=
  let sorted_years := sortStable strLt (years.map Prod.fst)
  (consecutivePairs sorted_years).filterMap (fun p =>
    pairAnomaly company metric p.1 p.2
      (parse_value ((List.lookup p.1 years).getD "0"))
      (parse_value ((List.lookup p.2 years).getD "0")))

/-- `detect_anomalies` (risk_agent.py lines 14-58), structured form. -/
def detect_anomalies (facts : List FactRec) : List Anomaly :=
  ((buildHistory facts).map (fun g => groupAnomalies g.1.1 g.1.2 g.2)).flatten

-- ---------------------------------------------------------------------
-- Spec-side reference definitions (written from the claims' wording,
-- for refinement comparisons against the source embeddings above)
-- ---------------------------------------------------------------------

/-- Claim-side regime classifier: keyword sets tried in the stated
priority order, first match wins, `OPERATING` default. -/
def regimePriority : List (Regime × List String) :=
  [(.ACCOUNTING, ACCOUNTING_KEYWORDS),
   (.ONE_TIME, ONE_TIME_KEYWORDS),
   (.GUIDANCE, GUIDANCE_KEYWORDS)]

def regimeSpecClaim (text : String) : Regime :=
  match regimePriority.find? (fun p => p.2.any (fun k => strIn k (pyLower text))) with
  | some p => p.1
  | none => .OPERATING

/-- Claim-side signal thresholds: `> 2` Positive, `< -2` Negative,
`|score| > 0.5` Mixed, else Noise. -/
def signalOfScoreClaim (score : ℚ) : String :=
  if score > 2 then "Positive"
  else if score < -2 then "Negative"
  else if pyAbs score > 1 / 2 then "Mixed"
  else "Noise"

def allMetricScores (insights : List SectionalInsight) : List ℚ :=
  (insights.map (fun i => i.metrics.map (fun m => m.signal_score))).flatten

/-- Claim-side (amended) aggregator: the clamped, 2-dp-rounded mean of
`signal_score` over ALL metrics irrespective of validation status. -/
def aggregateAllSpec (insights : List SectionalInsight) : ℚ × String :=
  let scores := allMetricScores insights
  if scores = [] then (0, "Noise")
  else
    let score := pyMax (-10) (pyMin 10 (round2 (scores.sum / (scores.length : ℚ))))
    (score, signalOfScoreClaim score)

theorem foldl_add_from (a : ℚ) (l : List ℚ) : l.foldl (· + ·) a = a + l.sum := by
  induction l generalizing a with
  | nil => simp
  | cons x t ih => simp [List.foldl_cons, ih, List.sum_cons]; ring

-- ---------------------------------------------------------------------
-- Concrete inputs used by witnesses and counterexamples
-- ---------------------------------------------------------------------

def mkPlainMetric (score : ℚ) : MetricDelta :=
  { subtopic := "Pricing Power", quote_old := "q1", quote_new := "q2",
    language_shift := "", signal_classification := "Positive",
    signal_score := score }

def c6ExampleInsights : List SectionalInsight :=
  [⟨"Revenue & Growth", [],
    [mkPlainMetric 8, mkPlainMetric (-2), mkPlainMetric 1]⟩]

def removedMetric (score : ℚ) : MetricDelta :=
  { subtopic := "Margins", quote_old := "q1", quote_new := "q2",
    language_shift := "", signal_classification := "Positive",
    signal_score := score, validation_status := "removed",
    validation_note := "fabricated figures" }

def removedInsight (score : ℚ) : SectionalInsight :=
  ⟨"Operational Margin", [], [removedMetric score]⟩

def c3Metric : MetricDelta :=
  { subtopic := "Free Cash Flow", quote_old := "fcf was 10",
    quote_new := "fcf was 12", language_shift := "improved",
    signal_classification := "Positive", signal_score := 5 }

def c3Insight : SectionalInsight := ⟨"Capital & Liquidity", [], [c3Metric]⟩

/-- A metric passes the local signal-score consistency rule. -/
def consistentSignal (m : MetricDelta) : Bool :=
  !(m.signal_classification == "Positive" && decide (m.signal_score < 0)) &&
  !(m.signal_classification == "Negative" && decide (m.signal_score > 0))

def factRev (year val : String) : FactRec := ⟨"A", "Revenue", year, val⟩

def c5DriftFacts : List FactRec := [factRev "2023" "$100", factRev "2024" "$80"]
def c5SpikeFacts : List FactRec := [factRev "2023" "$100", factRev "2024" "$125"]
def c5ZeroFacts : List FactRec := [factRev "2023" "$0", factRev "2024" "$50"]
def c5BoundaryFacts : List FactRec := [factRev "2023" "$100", factRev "2024" "$95"]

-- ---------------------------------------------------------------------
-- C9
-- ---------------------------------------------------------------------

/-- C9: `detect_regime` is a pure total function of the text, always
returning one of the four regimes, decided by case-insensitive keyword
membership in the fixed priority order Accounting, then OneTime, then
Guidance, with Operating as the default; and `is_comparable a b` holds
exactly when the two detected regimes are equal. -/
theorem c9_regime_priority_and_comparability :
    (∀ t, detect_regime t = regimeSpecClaim t) ∧
    (∀ t, detect_regime t ∈
      [Regime.ACCOUNTING, .ONE_TIME, .GUIDANCE, .OPERATING]) ∧
    (∀ a b, is_comparable a b = true ↔ detect_regime a = detect_regime b) := by
  refine ⟨?_, ?_, ?_⟩
  · intro t
    unfold detect_regime regimeSpecClaim regimePriority
    by_cases h1 : ACCOUNTING_KEYWORDS.any (fun k => strIn k (pyLower t)) <;>
    by_cases h2 : ONE_TIME_KEYWORDS.any (fun k => strIn k (pyLower t)) <;>
    by_cases h3 : GUIDANCE_KEYWORDS.any (fun k => strIn k (pyLower t)) <;>
    simp [h1, h2, h3, List.find?]
  · intro t
    cases h : detect_regime t <;> simp
  · intro a b
    simp [is_comparable, beq_iff_eq]

-- ---------------------------------------------------------------------
-- C6
-- ---------------------------------------------------------------------

/-- C6: the aggregator's signal is derived from the clamped rounded mean
by exactly the thresholds `> 2` Positive, `< -2` Negative,
`|score| > 0.5` Mixed, else Noise; the empty list yields exactly
`(0.0, Noise)`; and scores `[+8, -2, +1]` yield Positive. -/
theorem c6_signal_thresholds :
    (∀ insights, (compute_overall_signal insights).2 =
      signalOfScoreClaim (compute_overall_signal insights).1) ∧
    compute_overall_signal [] = (0, "Noise") ∧
    compute_overall_signal c6ExampleInsights = (233 / 100, "Positive") := by
  refine ⟨?_, by rfl, ?_⟩
  · intro insights
    cases h : ((insights.map (fun i => i.metrics.map (fun m => m.signal_score))).flatten).isEmpty
    · simp only [compute_overall_signal, h, Bool.false_eq_true, if_false]
      rfl
    · simp only [compute_overall_signal, h, if_true]
      norm_num [signalOfScoreClaim, pyAbs]
  · norm_num [compute_overall_signal, c6ExampleInsights, mkPlainMetric,
      pyMax, pyMin, pyAbs, round2]

-- ---------------------------------------------------------------------
-- C2
-- ---------------------------------------------------------------------

/-- C2 counterexample: a single record with validation status "removed"
and score 10 drives the overall verdict to (10, Positive); zeroing that
same Removed record's score changes the verdict to (0, Noise).  So the
aggregation neither excludes Removed records nor is insensitive to their
scores, contradicting the claim at this concrete input. -/
theorem c2_counterexample_removed_included :
    (removedMetric 10).validation_status = "removed" ∧
    compute_overall_signal [removedInsight 10] = (10, "Positive") ∧
    compute_overall_signal [removedInsight 0] = (0, "Noise") := by
  refine ⟨rfl, ?_, ?_⟩ <;>
    norm_num [compute_overall_signal, removedInsight, removedMetric,
      pyMax, pyMin, pyAbs, round2]

/-- C2 (amended): the aggregation step performs no validation-status
filtering: the returned overall score is the clamped, 2-dp-rounded
arithmetic mean of `signal_score` over ALL records (Verified, Flagged
and Removed alike), and consequently changing the score of a Removed
record can change the verdict. -/
theorem c2_amended_mean_over_all_records :
    (∀ insights, compute_overall_signal insights = aggregateAllSpec insights) ∧
    (compute_overall_signal [removedInsight 10]).2 ≠
      (compute_overall_signal [removedInsight 0]).2 := by
  constructor
  · intro insights
    unfold compute_overall_signal aggregateAllSpec allMetricScores
    by_cases h :
        (insights.map (fun i => i.metrics.map (fun m => m.signal_score))).flatten = []
    · simp [h]
    · have h' :
          ((insights.map (fun i => i.metrics.map (fun m => m.signal_score))).flatten).isEmpty
            = false := by
        simpa [List.isEmpty_iff] using h
      simp only [h', if_neg h, Bool.false_eq_true, if_false]
      rw [foldl_add_from]
      simp [signalOfScoreClaim]
  · norm_num [compute_overall_signal, removedInsight, removedMetric,
      pyMax, pyMin, pyAbs, round2]
    decide

-- ---------------------------------------------------------------------
-- C3
-- ---------------------------------------------------------------------

/-- C3 counterexample: when the validating capability call fails, a
record whose local signal-score check passes is returned completely
unchanged, still carrying the default validation status "verified" with
an empty validation note — indistinguishable from a positively Verified
record, contradicting the claim's second half. -/
theorem c3_counterexample_verified_by_omission :
    validate_section c3Insight .raise = c3Insight ∧
    c3Metric.validation_status = "verified" ∧
    c3Metric.validation_note = "" := by
  refine ⟨by decide, rfl, rfl⟩

/-- C3 (amended): on capability failure `validate_section` does run the
local signal-score consistency check on every record of the section, but
any record that passes the local check is left untouched — it retains the
pydantic default status "verified" and empty note, so records whose
quote/numeric checks were left unresolved are NOT distinguishable from
positively Verified ones. -/
theorem c3_amended_local_check_only :
    (∀ insight, (validate_section insight .raise).metrics =
      insight.metrics.map _local_consistency_check_metric) ∧
    (∀ m, consistentSignal m = true → _local_consistency_check_metric m = m) := by
  constructor
  · intro insight
    unfold validate_section
    by_cases h : insight.metrics.isEmpty
    · have h' : insight.metrics = [] := by simpa [List.isEmpty_iff] using h
      simp [h, h']
    · simp [h]
  · intro m h
    simp only [consistentSignal, Bool.and_eq_true, Bool.not_eq_true'] at h
    unfold _local_consistency_check_metric
    rw [if_neg, if_neg] <;> simp [h.1, h.2]

theorem c3_witness_consistent_record_untouched :
    _local_consistency_check_metric c3Metric = c3Metric ∧
    (validate_section c3Insight .raise).metrics = [c3Metric] := by
  refine ⟨c3_amended_local_check_only.2 c3Metric (by decide), ?_⟩
  rw [c3_amended_local_check_only.1 c3Insight]
  exact congrArg (fun x => [x]) (c3_amended_local_check_only.2 c3Metric (by decide))

-- ---------------------------------------------------------------------
-- C5
-- ---------------------------------------------------------------------

/-- C5 counterexample: at exactly −5% ($100 → $95) the source emits no
anomaly, because its thresholds are strict (`change_pct < -5.0`), while
the claim's "Drift iff change ≤ −5%" demands a Drift anomaly here. -/
theorem c5_counterexample_boundary_minus5 :
    detect_anomalies c5BoundaryFacts = [] ∧
    ((parse_value "$95" - parse_value "$100") / parse_value "$100") * 100 = -5 := by
  constructor
  · have hp : pairAnomaly "A" "Revenue" "2023" "2024"
        (parse_value "$100") (parse_value "$95") = none := by
      rw [(by decide : parse_value "$100" = (100 : ℚ)),
          (by decide : parse_value "$95" = (95 : ℚ))]
      norm_num [pairAnomaly]
    simp [detect_anomalies, c5BoundaryFacts, factRev, buildHistory, dictSet,
      groupAnomalies, sortStable, insertStable, strLt, charListLt,
      consecutivePairs, List.lookup, List.filterMap, hp]
  · rw [(by decide : parse_value "$100" = (100 : ℚ)),
        (by decide : parse_value "$95" = (95 : ℚ))]
    norm_num

/-- C5 (amended): the pair classifier follows the reference definition
with STRICT thresholds — a zero previous value is skipped, a pair yields
Drift exactly when the percent change is `< −5`, Spike exactly when it
is `> +20`, and any emitted anomaly records the exact percent change;
on the claim's concrete inputs, $100→$80 yields exactly one Drift at
−20.0, $100→$125 exactly one Spike at +25.0, and $0→$50 nothing. -/
theorem c5_amended_strict_thresholds :
    (∀ c m yp yc (vp vc : ℚ),
      ((pairAnomaly c m yp yc vp vc).map Anomaly.kind = some AnomKind.Drift ↔
        vp ≠ 0 ∧ ((vc - vp) / vp) * 100 < -5) ∧
      ((pairAnomaly c m yp yc vp vc).map Anomaly.kind = some AnomKind.Spike ↔
        vp ≠ 0 ∧ ((vc - vp) / vp) * 100 > 20) ∧
      (∀ a, pairAnomaly c m yp yc vp vc = some a →
        a.pct_change = ((vc - vp) / vp) * 100)) ∧
    detect_anomalies c5DriftFacts =
      [⟨"A", "Revenue", "2023", "2024", -20, .Drift⟩] ∧
    detect_anomalies c5SpikeFacts =
      [⟨"A", "Revenue", "2023", "2024", 25, .Spike⟩] ∧
    detect_anomalies c5ZeroFacts = [] := by
  refine ⟨?_, ?_, ?_, ?_⟩
  · intro c m yp yc vp vc
    by_cases h0 : vp = 0
    · simp [pairAnomaly, h0]
    · by_cases hd : ((vc - vp) / vp) * 100 < -5
      · have hns : ¬ ((vc - vp) / vp) * 100 > 20 := by linarith
        refine ⟨by simp [pairAnomaly, h0, hd], by simp [pairAnomaly, h0, hd, hns], ?_⟩
        intro a ha
        simp [pairAnomaly, h0, hd] at ha
        rw [← ha]
      · by_cases hs : ((vc - vp) / vp) * 100 > 20
        · refine ⟨by simp [pairAnomaly, h0, hd, hs], by simp [pairAnomaly, h0, hd, hs], ?_⟩
          intro a ha
          simp [pairAnomaly, h0, hd, hs] at ha
          rw [← ha]
        · refine ⟨by simp [pairAnomaly, h0, hd, hs], by simp [pairAnomaly, h0, hd, hs], ?_⟩
          intro a ha
          simp [pairAnomaly, h0, hd, hs] at ha
  · have hp : pairAnomaly "A" "Revenue" "2023" "2024"
        (parse_value "$100") (parse_value "$80") =
        some ⟨"A", "Revenue", "2023", "2024", -20, .Drift⟩ := by
      rw [(by decide : parse_value "$100" = (100 : ℚ)),
          (by decide : parse_value "$80" = (80 : ℚ))]
      norm_num [pairAnomaly]
    simp [detect_anomalies, c5DriftFacts, factRev, buildHistory, dictSet,
      groupAnomalies, sortStable, insertStable, strLt, charListLt,
      consecutivePairs, List.lookup, List.filterMap, hp]
  · have hp : pairAnomaly "A" "Revenue" "2023" "2024"
        (parse_value "$100") (parse_value "$125") =
        some ⟨"A", "Revenue", "2023", "2024", 25, .Spike⟩ := by
      rw [(by decide : parse_value "$100" = (100 : ℚ)),
          (by decide : parse_value "$125" = (125 : ℚ))]
      norm_num [pairAnomaly]
    simp [detect_anomalies, c5SpikeFacts, factRev, buildHistory, dictSet,
      groupAnomalies, sortStable, insertStable, strLt, charListLt,
      consecutivePairs, List.lookup, List.filterMap, hp]
  · have hp : pairAnomaly "A" "Revenue" "2023" "2024"
        (parse_value "$0") (parse_value "$50") = none := by
      rw [(by decide : parse_value "$0" = (0 : ℚ))]
      norm_num [pairAnomaly]
    simp [detect_anomalies, c5ZeroFacts, factRev, buildHistory, dictSet,
      groupAnomalies, sortStable, insertStable, strLt, charListLt,
      consecutivePairs, List.lookup, List.filterMap, hp]

theorem c5_witness_drift_pair :
    (pairAnomaly "A" "R" "y1" "y2" 100 80).map Anomaly.kind =
      some AnomKind.Drift :=
  ((c5_amended_strict_thresholds.1 "A" "R" "y1" "y2" 100 80).1).mpr
    ⟨by norm_num, by norm_num⟩

deriving instance DecidableEq for Except

-- Concrete batch-analysis inputs for witnesses and counterexamples.

def longText : String := String.mk (List.replicate 120 'a')

def qdataTwo : QuarterData :=
  [("Q1_2024", [("MD&A", some longText)]), ("Q2_2024", [("MD&A", some longText)])]

def pdTwoCompanies : ParsedData := [("alpha", qdataTwo), ("beta", qdataTwo)]
def pdOneCompany : ParsedData := [("alpha", qdataTwo)]
def pwAlpha : PairWork := ⟨"alpha", "Q2_2024", "Q1_2024", qdataTwo⟩
def pwBeta : PairWork := ⟨"beta", "Q2_2024", "Q1_2024", qdataTwo⟩
def envRaise : SecEnv := fun _ _ _ => CapOutcome.raise
def envParsedEmpty : SecEnv := fun _ _ _ => CapOutcome.parsed []
def venvPlain : VerdictOutcome := VerdictOutcome.parsed ⟨"", "", ""⟩

def row1 : ResultRow :=
  ⟨"alpha", "Q1_2024", "Q2_2024", "MD&A", "old impairment", "new impairment",
   "changed", "Negative"⟩

def c7Cache : Cache :=
  [(get_cache_key "alpha" "Q1_2024" "Q2_2024" "MD&A", [row1, row1]),
   (get_cache_key "alpha" "Q1_2024" "Q2_2024" "Risk_Factors", []),
   (get_cache_key "alpha" "Q1_2024" "Q2_2024" "Accounting", [])]

def c8Cache : Cache :=
  [(get_cache_key "alpha" "Q1_2024" "Q2_2024" "MD&A", [row1]),
   (get_cache_key "alpha" "Q1_2024" "Q2_2024" "Risk_Factors", [])]

def c10Raw : RawChange :=
  ⟨some "impairment provision increased", some "impairment model updated",
   some "methodology shift", some "Negative"⟩

def c10Rec : DisclosureChange :=
  ⟨"MD&A", "impairment provision increased", "impairment model updated",
   "methodology shift", .NEGATIVE⟩

-- ---------------------------------------------------------------------
-- C10
-- ---------------------------------------------------------------------

theorem processLoop_retention (s : String) :
    ∀ (chs : List RawChange) (sn sd : List String) (r : DisclosureChange),
      r ∈ processLoop s sn sd chs →
      r.quote_old ≠ "" ∧ r.quote_new ≠ "" ∧
        detect_regime r.quote_old = detect_regime r.quote_new := by
  intro chs
  induction chs with
  | nil => intro sn sd r hr; simp [processLoop] at hr
  | cons ch rest ih =>
    intro sn sd r hr
    simp only [processLoop] at hr
    split at hr
    · exact ih _ _ r hr
    · split at hr
      · exact ih _ _ r hr
      · split at hr
        · exact ih _ _ r hr
        · next h1 h2 h3 =>
          simp only [List.mem_cons] at hr
          rcases hr with hEq | hMem
          · subst hEq
            push_neg at h1
            refine ⟨h1.1, h1.2, ?_⟩
            have hc := not_not.mp h2
            simpa [is_comparable, beq_iff_eq] using hc
          · exact ih _ _ r hMem

/-- C10: every record in a successfully returned `compare_sections` list
has non-empty (stripped) quotes and equal detected regimes for its old
and new quote; candidates violating either condition are filtered out.
(Retained quote fields are the stripped candidate quotes, so
non-emptiness is non-emptiness after stripping.) -/
theorem c10_retention_invariants :
    ∀ section_name text_previous text_current cap rs r,
      compare_sections section_name text_previous text_current cap =
        .ok rs →
      r ∈ rs →
      r.quote_old ≠ "" ∧ r.quote_new ≠ "" ∧
        detect_regime r.quote_old = detect_regime r.quote_new := by
  intro s tp tc cap rs r hok hr
  unfold compare_sections at hok
  split at hok
  · cases cap with
    | raise => simp at hok
    | badJson => simp at hok
    | noBlock c =>
      simp only [Except.ok.injEq] at hok
      subst hok
      exact processLoop_retention s [] [] [] r hr
    | parsed chs =>
      simp only [Except.ok.injEq] at hok
      subst hok
      exact processLoop_retention s chs [] [] r hr
  · simp only [Except.ok.injEq] at hok
    subst hok
    simp at hr

set_option maxRecDepth 100000 in
theorem c10_witness_accounting_pair :
    c10Rec.quote_old ≠ "" ∧ c10Rec.quote_new ≠ "" ∧
      detect_regime c10Rec.quote_old = detect_regime c10Rec.quote_new :=
  c10_retention_invariants "MD&A" (some longText) (some longText)
    (CapOutcome.parsed [c10Raw]) [c10Rec] c10Rec (by decide) (by decide)

-- ---------------------------------------------------------------------
-- C7
-- ---------------------------------------------------------------------

/-- Claim-side dedup: keep the first occurrence of each key, drop every
later record with the same key, keep everything else unchanged. -/
def dedupSpec (rs : List ResultRow) : List ResultRow :=
  match rs with
  | [] => []
  | r :: t => r :: dedupSpec (t.filter (fun x => !(rowKey x == rowKey r)))
termination_by rs.length
decreasing_by
  simp only [List.length_cons]
  exact Nat.lt_succ_of_le (List.length_filter_le _ _)

theorem mem_dedupGo_not_seen :
    ∀ (rs : List ResultRow) (seen : List (String × String × String)) r,
      r ∈ dedupGo seen rs → rowKey r ∉ seen := by
  intro rs
  induction rs with
  | nil => intro seen r hr; simp [dedupGo] at hr
  | cons x t ih =>
    intro seen r hr
    by_cases h : rowKey x ∈ seen
    · rw [dedupGo, if_pos h] at hr
      exact ih seen r hr
    · rw [dedupGo, if_neg h] at hr
      rcases List.mem_cons.mp hr with rfl | hm
      · exact h
      · intro hc
        exact ih _ r hm (List.mem_cons_of_mem _ hc)

theorem dedupGo_pairwise :
    ∀ (rs : List ResultRow) (seen : List (String × String × String)),
      (dedupGo seen rs).Pairwise (fun a b => rowKey a ≠ rowKey b) := by
  intro rs
  induction rs with
  | nil => intro seen; simp [dedupGo]
  | cons x t ih =>
    intro seen
    by_cases h : rowKey x ∈ seen
    · rw [dedupGo, if_pos h]
      exact ih seen
    · rw [dedupGo, if_neg h]
      refine List.Pairwise.cons ?_ (ih _)
      intro b hb hc
      exact mem_dedupGo_not_seen t _ b hb (by rw [← hc]; exact List.mem_cons_self _ _)

theorem dedupGo_eq_spec :
    ∀ (rs : List ResultRow) (seen : List (String × String × String)),
      dedupGo seen rs = dedupSpec (rs.filter (fun r => decide (rowKey r ∉ seen))) := by
  intro rs
  induction rs with
  | nil => intro seen; simp [dedupGo, dedupSpec]
  | cons x t ih =>
    intro seen
    by_cases h : rowKey x ∈ seen
    · rw [dedupGo, if_pos h]
      have hx : decide (rowKey x ∉ seen) = false := by simp [h]
      rw [List.filter_cons, hx]
      simp only [Bool.false_eq_true, if_false]
      exact ih seen
    · rw [dedupGo, if_neg h]
      have hx : decide (rowKey x ∉ seen) = true := by simp [h]
      rw [List.filter_cons, hx]
      simp only [if_true]
      rw [dedupSpec]
      congr 1
      rw [ih (rowKey x :: seen), List.filter_filter]
      have hfun : (fun r : ResultRow => decide (rowKey r ∉ rowKey x :: seen)) =
          (fun a : ResultRow => !(rowKey a == rowKey x) && decide (rowKey a ∉ seen)) := by
        funext y
        by_cases h1 : rowKey y = rowKey x <;> by_cases h2 : rowKey y ∈ seen <;>
          simp [h1, h2]
      rw [hfun]

theorem dedupRows_eq_spec (rs : List ResultRow) : dedupRows rs = dedupSpec rs := by
  have h := dedupGo_eq_spec rs []
  simpa [dedupRows] using h

theorem afterPlan_ok_results :
    ∀ dryRun cache env venv hitRs pairs out cache',
      afterPlan dryRun cache env venv hitRs pairs = .ok (out, cache') →
      ∃ rs, out.results = dedupRows rs := by
  intro dryRun cache env venv hitRs pairs out cache' hok
  unfold afterPlan at hok
  split at hok
  · simp at hok
  · next results cacheMid _ =>
    simp only [] at hok
    split at hok
    · split at hok
      · simp at hok
      · simp only [Except.ok.injEq, Prod.mk.injEq] at hok
        exact ⟨results, by rw [← hok.1]⟩
    · simp only [Except.ok.injEq, Prod.mk.injEq] at hok
      exact ⟨results, by rw [← hok.1]⟩

/-- C7: in every successfully returned batch, no two result records
share the dedup key `(entity lower-cased, quarter_curr, quote_new
lower-cased)`; and the dedup pass equals the first-occurrence-wins
reference: keep the head, drop every later record with the head's key,
recurse — so non-duplicate records are kept unchanged in order. -/
theorem c7_global_dedup :
    (∀ dryRun cache pd env venv out cache',
      analyze_all_companies dryRun cache pd env venv = .ok (out, cache') →
      out.results.Pairwise (fun a b => rowKey a ≠ rowKey b)) ∧
    (∀ rs, dedupRows rs = dedupSpec rs) := by
  constructor
  · intro dryRun cache pd env venv out cache' hok
    obtain ⟨rs, hrs⟩ := afterPlan_ok_results dryRun cache env venv _ _ out cache' hok
    rw [hrs]
    exact dedupGo_pairwise rs []
  · exact dedupRows_eq_spec

set_option maxRecDepth 100000 in
theorem c7_witness_cached_batch :
    ([row1] : List ResultRow).Pairwise (fun a b => rowKey a ≠ rowKey b) :=
  c7_global_dedup.1 false c7Cache pdOneCompany envRaise
    (VerdictOutcome.parsed ⟨"i", "v", "Noise"⟩)
    ⟨[row1], some ⟨"i", "v", "Noise"⟩⟩ c7Cache (by decide)

-- ---------------------------------------------------------------------
-- C8
-- ---------------------------------------------------------------------

theorem collectCached_isSome :
    ∀ (ss : List String) (cache : Cache) (company q_prev q_curr : String),
      (collectCached cache company q_prev q_curr ss).isSome = true ↔
        ∀ s ∈ ss,
          (cacheLookup cache (get_cache_key company q_prev q_curr s)).isSome = true := by
  intro ss
  induction ss with
  | nil => intro cache c qp qc; simp [collectCached]
  | cons s rest ih =>
    intro cache c qp qc
    cases h : cacheLookup cache (get_cache_key c qp qc s) with
    | none => simp [collectCached, h]
    | some rs => simp [collectCached, h, ih]

/-- C8: a (company, quarter-pair) is a cache hit only when all three
section keys are present; with any key missing the pair is a full miss —
it contributes no cached records to the results and is scheduled for
recomputation, and the scheduled recomputation (`compare_quarters`) runs
one `compare_sections` call for every one of the three sections, not
only the missing ones. -/
theorem c8_partial_cache_is_full_miss :
    (∀ cache company q_prev q_curr,
      (pairCachedChanges cache company q_prev q_curr).isSome = true ↔
        ∀ s ∈ SECTIONS,
          (cacheLookup cache (get_cache_key company q_prev q_curr s)).isSome = true) ∧
    (∀ cache company qdata q_prev q_curr rest,
      pairCachedChanges cache company q_prev q_curr = none →
      planPairs cache false company qdata ((q_prev, q_curr) :: rest) =
        ((planPairs cache false company qdata rest).1,
         ⟨company, q_curr, q_prev, qdata⟩ ::
           (planPairs cache false company qdata rest).2)) ∧
    (∀ company q_curr q_prev dc dp env,
      compare_quarters company q_curr q_prev dc dp env =
        match exceptMapM
            (fun s => compare_sections s (getSec dp s) (getSec dc s)
              (env s (getSec dp s) (getSec dc s))) SECTIONS with
        | .error e => .error e
        | .ok rss => .ok rss.flatten) := by
  refine ⟨?_, ?_, ?_⟩
  · intro cache c qp qc
    exact collectCached_isSome SECTIONS cache c qp qc
  · intro cache c qdata qp qc rest h
    simp [planPairs, h]
  · intro c qc qp dc dp env
    rfl

set_option maxRecDepth 100000 in
theorem c8_witness_two_of_three_cached :
    planPairs c8Cache false "alpha" qdataTwo [("Q1_2024", "Q2_2024")] =
      ([], [⟨"alpha", "Q2_2024", "Q1_2024", qdataTwo⟩]) := by
  have h := c8_partial_cache_is_full_miss.2.1 c8Cache "alpha" qdataTwo
    "Q1_2024" "Q2_2024" [] (by decide)
  rw [h]
  decide

-- ---------------------------------------------------------------------
-- C1 and C4: exception propagation through the batch
-- ---------------------------------------------------------------------

theorem compare_sections_benign (s : String) (tp tc : Option String)
    (cap : CapOutcome) (h1 : cap ≠ CapOutcome.raise)
    (h2 : cap ≠ CapOutcome.badJson) :
    ∃ l, compare_sections s tp tc cap = .ok l := by
  cases cap with
  | raise => exact absurd rfl h1
  | badJson => exact absurd rfl h2
  | noBlock c =>
    unfold compare_sections
    split
    · exact ⟨_, rfl⟩
    · exact ⟨_, rfl⟩
  | parsed chs =>
    unfold compare_sections
    split
    · exact ⟨_, rfl⟩
    · exact ⟨_, rfl⟩

theorem exceptMapM_ok {α β ε : Type} (f : α → Except ε β) :
    ∀ l : List α, (∀ a ∈ l, ∃ b, f a = .ok b) →
      ∃ bs, exceptMapM f l = .ok bs := by
  intro l
  induction l with
  | nil => intro _; exact ⟨[], rfl⟩
  | cons a t ih =>
    intro h
    obtain ⟨b, hb⟩ := h a (List.mem_cons_self _ _)
    obtain ⟨bs, hbs⟩ := ih (fun x hx => h x (List.mem_cons_of_mem _ hx))
    exact ⟨b :: bs, by simp [exceptMapM, hb, hbs]⟩

theorem analyze_pair_benign (env : SecEnv)
    (benign : ∀ s a b, env s a b ≠ CapOutcome.raise ∧ env s a b ≠ CapOutcome.badJson)
    (pw : PairWork) : ∃ pr, analyze_pair env pw = .ok pr := by
  obtain ⟨rss, hrss⟩ := exceptMapM_ok
    (fun s => compare_sections s (getSec (qGet pw.qdata pw.q_prev) s)
      (getSec (qGet pw.qdata pw.q_curr) s)
      (env s (getSec (qGet pw.qdata pw.q_prev) s) (getSec (qGet pw.qdata pw.q_curr) s)))
    SECTIONS
    (fun s _ => compare_sections_benign s _ _ _ (benign s _ _).1 (benign s _ _).2)
  refine ⟨rss.flatten.map (fun c =>
    { Company := pw.company, Quarter_Previous := pw.q_prev,
      Quarter_Current := pw.q_curr, Section := c.sectionName,
      Quote_Old := c.quote_old, Quote_New := c.quote_new,
      Description := c.description_of_change,
      Signal := signalValue c.signal_classification }), ?_⟩
  unfold analyze_pair compare_quarters
  rw [hrss]

theorem updateCache_nameError (cache : Cache) (pw : PairWork)
    (pr : List ResultRow) : updateCacheForPair cache pw pr = .error .nameError := by
  have h : analyzerModuleBindings.contains "defaultdict" = false := by decide
  simp [updateCacheForPair, h]
  decide

theorem processPairs_nameError (env : SecEnv)
    (benign : ∀ s a b, env s a b ≠ CapOutcome.raise ∧ env s a b ≠ CapOutcome.badJson)
    (cache : Cache) (acc : List ResultRow) (pw : PairWork) (rest : List PairWork) :
    processPairs env cache acc (pw :: rest) = .error .nameError := by
  obtain ⟨pr, hpr⟩ := analyze_pair_benign env benign pw
  simp [processPairs, hpr, updateCache_nameError]

theorem processPairs_first_error (env : SecEnv) (cache : Cache)
    (acc : List ResultRow) (pw : PairWork) (rest : List PairWork) (e : PyExc)
    (h : analyze_pair env pw = .error e) :
    processPairs env cache acc (pw :: rest) = .error e := by
  simp [processPairs, h]

theorem afterPlan_first_error (dryRun : Bool) (cache : Cache) (env : SecEnv)
    (venv : VerdictOutcome) (hitRs : List ResultRow) (pw : PairWork)
    (rest : List PairWork) (e : PyExc)
    (h : processPairs env cache hitRs (pw :: rest) = .error e) :
    afterPlan dryRun cache env venv hitRs (pw :: rest) = .error e := by
  unfold afterPlan
  simp [h]

-- ---------------------------------------------------------------------
-- C1
-- ---------------------------------------------------------------------

set_option maxRecDepth 100000 in
/-- C1 counterexample: an exception from the extraction capability does
NOT yield an empty list — `compare_sections` propagates it (there is no
try/except around `chain.invoke` / `json.loads`), and on a two-company
batch the first failing pair aborts `analyze_all_companies` entirely:
no results are produced for the sibling company either. -/
theorem c1_counterexample_exception_aborts_batch :
    compare_sections "MD&A" (some longText) (some longText) CapOutcome.raise =
      .error .capabilityError ∧
    analyze_all_companies false [] pdTwoCompanies envRaise venvPlain =
      .error .capabilityError := by
  exact ⟨by decide, by decide⟩

/-- C1 (amended): for a section passing the minimum-length guard, a
capability exception propagates out of `compare_sections` as an error
(and, through `future.result()`, the first scheduled pair's error aborts
the whole `analyze_all_companies` batch); only a reply in which no
structured block is found falls back to the empty list. -/
theorem c1_amended_exception_propagates :
    (∀ s tp tc, (sectionTextOk tp && sectionTextOk tc) = true →
      compare_sections s tp tc CapOutcome.raise = .error .capabilityError) ∧
    (∀ s tp tc content, (sectionTextOk tp && sectionTextOk tc) = true →
      compare_sections s tp tc (CapOutcome.noBlock content) = .ok []) ∧
    (∀ cache pd env venv hitRs pw rest e,
      planAll cache false pd = (hitRs, pw :: rest) →
      analyze_pair env pw = .error e →
      analyze_all_companies false cache pd env venv = .error e) := by
  refine ⟨?_, ?_, ?_⟩
  · intro s tp tc h
    simp [compare_sections, h]
  · intro s tp tc content h
    simp [compare_sections, h, processCandidates, processLoop]
  · intro cache pd env venv hitRs pw rest e hplan hpair
    unfold analyze_all_companies
    rw [hplan]
    exact afterPlan_first_error false cache env venv hitRs pw rest e
      (processPairs_first_error env cache hitRs pw rest e hpair)

set_option maxRecDepth 100000 in
theorem c1_witness_propagation :
    compare_sections "Risk_Factors" (some longText) (some longText)
      CapOutcome.raise = .error .capabilityError ∧
    compare_sections "Accounting" (some longText) (some longText)
      (CapOutcome.noBlock "no structured block here") = .ok [] ∧
    analyze_all_companies false [] pdTwoCompanies envRaise venvPlain =
      .error .capabilityError :=
  ⟨c1_amended_exception_propagates.1 "Risk_Factors" _ _ (by decide),
   c1_amended_exception_propagates.2.1 "Accounting" _ _ _ (by decide),
   c1_amended_exception_propagates.2.2 [] pdTwoCompanies envRaise venvPlain
     [] pwAlpha [pwBeta] PyExc.capabilityError (by decide) (by decide)⟩

-- ---------------------------------------------------------------------
-- C4
-- ---------------------------------------------------------------------

/-- C4: with at least one (company, quarter-pair) scheduled for fresh
analysis (not fully cached) and the capability itself well-behaved, the
batch run hits `by_section = defaultdict(list)` while merging the first
analyzed pair's results back — `defaultdict` is bound nowhere in the
module — and `analyze_all_companies` aborts with `NameError`: nothing is
returned and no freshly computed record is written to the cache. -/
theorem c4_defaultdict_nameerror :
    ∀ cache pd env venv,
      (planAll cache false pd).2 ≠ [] →
      (∀ s a b, env s a b ≠ CapOutcome.raise ∧ env s a b ≠ CapOutcome.badJson) →
      analyze_all_companies false cache pd env venv = .error .nameError := by
  intro cache pd env venv hne benign
  unfold analyze_all_companies
  cases hplan : planAll cache false pd with
  | mk hitRs pairs =>
    rw [hplan] at hne
    cases pairs with
    | nil => exact absurd rfl hne
    | cons pw rest =>
      exact afterPlan_first_error false cache env venv hitRs pw rest _
        (processPairs_nameError env benign cache hitRs pw rest)

set_option maxRecDepth 100000 in
theorem c4_witness_uncached_pair :
    analyze_all_companies false [] pdOneCompany envParsedEmpty venvPlain =
      .error .nameError :=
  c4_defaultdict_nameerror [] pdOneCompany envParsedEmpty venvPlain
    (by decide)
    (fun s a b => ⟨fun h => CapOutcome.noConfusion h,
                   fun h => CapOutcome.noConfusion h⟩)
